import Mathlib

/-!
Shallow embedding of the vibucket repository (a Bitbucket MCP server):
the Remote API Client of `src/bitbucket.ts` and the method dispatcher of
`src/mcp.ts` (primary variant), together with theorems settling the
frozen claims about the natural-language specification.

Conventions of the embedding:
* JavaScript JSON values become the inductive `Json` (objects are ordered
  association lists, numbers are modelled as integers).
* A thrown exception becomes an `Except` error value.
* JavaScript truthiness tests `if (x)` on optional values become matches
  on `Option` with the extra falsy cases (`0` for numbers, `""` for
  strings) written out explicitly.
* The network is a parameter `net : HttpRequest → FetchOutcome`, so that a
  single call's behaviour is a pure function of the response the network
  gives it.
-/

namespace Vibucket

/-- JSON values as decoded by `response.json()` and produced by handlers.
Objects are ordered lists of key-value pairs; numbers are modelled as
integers (all numeric fields used by the repository are integral). -/
inductive Json where
  | null
  | bool (b : Bool)
  | num (n : Int)
  | str (s : String)
  | arr (elems : List Json)
  | obj (fields : List (String × Json))
deriving Repr

/-- Property access `j[k]` on a JSON object, as used by the handlers.
Totalised with `Json.null` for a missing key or a non-object receiver. -/
def Json.field : Json → String → Json
  | .obj fields, k =>
      match fields.find? (fun p => p.1 == k) with
      | some p => p.2
      | none => .null
  | _, _ => .null

/-! ### Base64 (the `btoa` built-in used by `getAuthHeader`) -/

/-- The standard Base64 alphabet. -/
def base64Alphabet : List Char :=
  "ABCDEFGHIJKLMNOPQRSTUVWXYZabcdefghijklmnopqrstuvwxyz0123456789+/".toList

/-- Character of the Base64 alphabet at index `n` (for `n < 64`). -/
def base64Digit (n : Nat) : Char :=
  base64Alphabet.getD n 'A'

/-- RFC 4648 Base64 of a byte sequence, with padding. -/
def base64EncodeBytes : List Nat → List Char
  | [] => []
  | [a] =>
      [base64Digit (a / 4), base64Digit (a % 4 * 16), '=', '=']
  | [a, b] =>
      [base64Digit (a / 4), base64Digit (a % 4 * 16 + b / 16),
       base64Digit (b % 16 * 4), '=']
  | a :: b :: c :: rest =>
      base64Digit (a / 4) :: base64Digit (a % 4 * 16 + b / 16) ::
      base64Digit (b % 16 * 4 + c / 64) :: base64Digit (c % 64) ::
      base64EncodeBytes rest

/-- The `btoa` built-in on a Latin-1 string: Base64 of its code points.
Credentials in this system are ASCII, where `Char.toNat` is the byte. -/
def btoa (s : String) : String :=
  String.mk (base64EncodeBytes (s.toList.map Char.toNat))

/-! ### Credentials and the Authorization header (`src/bitbucket.ts`) -/

/-- `BitbucketAuth` of `src/bitbucket.ts`: username and app password. -/
structure BitbucketAuth where
  username : String
  password : String
deriving Repr, DecidableEq

/-- `BitbucketClient.getAuthHeader`: empty when the client has no
credentials, otherwise the HTTP Basic header for `username:password`. -/
def getAuthHeader : Option BitbucketAuth → List (String × String)
  | none => []
  | some auth =>
      [("Authorization", "Basic " ++ btoa (auth.username ++ ":" ++ auth.password))]

/-! ### HTTP model -/

/-- HTTP verbs used by the client. -/
inductive HttpMethod where
  | GET
  | POST
  | PUT
deriving Repr, DecidableEq

/-- An outbound HTTP request as assembled by `BitbucketClient.request`.
The body is the value passed through `JSON.stringify` (or absent). -/
structure HttpRequest where
  url : String
  method : HttpMethod
  headers : List (String × String)
  body : Option Json
deriving Repr

/-- An HTTP response as seen through `fetch`: status, status text, and the
result of `response.json()` (`none` when the body is not valid JSON). -/
structure HttpResponse where
  status : Nat
  statusText : String
  bodyJson : Option Json
deriving Repr

/-- `response.ok`: status in the success range 200-299. -/
def HttpResponse.ok (r : HttpResponse) : Bool :=
  decide (200 ≤ r.status) && decide (r.status ≤ 299)

/-- Outcome of `fetch`: either the promise rejects with a network-level
error (no response at all), or a response is obtained. -/
inductive FetchOutcome where
  | failure (err : String)
  | response (r : HttpResponse)
deriving Repr

/-- Failure modes of `BitbucketClient.request`:
* `transportError` — the `fetch` promise rejected (no response at all);
  the rejection propagates to the caller carrying the underlying error.
* `remoteApiError` — a response arrived with a non-success status; the
  code throws an `Error` built from the status, the status text, and the
  decoded (or fallback) error body.
* `decodeError` — a success response whose body is not valid JSON
  (`response.json()` rejects on the success path). -/
inductive RequestError where
  | transportError (err : String)
  | remoteApiError (status : Nat) (statusText : String) (errorBody : Json)
  | decodeError
deriving Repr

/-- The fallback error body `({ message: 'Unknown error' })` used when the
error response body cannot be decoded as JSON. -/
def fallbackErrorBody : Json :=
  .obj [("message", .str "Unknown error")]

/-- The response-handling tail of `BitbucketClient.request`: propagate a
network failure; on a non-ok status decode the error body (falling back)
and fail with the status, status text, and error payload; on success
return the decoded JSON body. -/
def processResponse : FetchOutcome → Except RequestError Json
  | .failure e => .error (.transportError e)
  | .response r =>
      if r.ok then
        match r.bodyJson with
        | some j => .ok j
        | none => .error .decodeError
      else
        .error (.remoteApiError r.status r.statusText (r.bodyJson.getD fallbackErrorBody))

/-- Base URL constant `BITBUCKET_API_BASE_URL` of `src/bitbucket.ts`. -/
def BITBUCKET_API_BASE_URL : String := "https://api.bitbucket.org/2.0"

/-- Header assembly in `BitbucketClient.request`: `Content-Type` first,
then the auth header, then `Object.assign` of any option headers (later
entries shadow earlier ones on the same key; the repository's operations
never pass option headers). -/
def requestHeaders (auth : Option BitbucketAuth)
    (optionHeaders : List (String × String)) : List (String × String) :=
  ([("Content-Type", "application/json")] ++ getAuthHeader auth) ++ optionHeaders

/-! ### Query-parameter construction (`URLSearchParams` with JS truthiness)

Each list operation appends a parameter only when the corresponding
`if (options.x)` test passes. For an optional number that test is false
both when the field is absent and when it is `0`; for an optional free
string also when it is `""`; the enum-valued fields (`role`, `state`) are
non-empty string literals, truthy exactly when present. -/

/-- `if (options.k) params.append(k, options.k.toString())` for an
optional number: absent and `0` both yield nothing. -/
def numParam (k : String) : Option Int → List (String × String)
  | some n => if n == 0 then [] else [(k, toString n)]
  | none => []

/-- `if (options.k) params.append(k, options.k)` for an optional free
string: absent and `""` both yield nothing. -/
def strParam (k : String) : Option String → List (String × String)
  | some s => if s == "" then [] else [(k, s)]
  | none => []

/-- `params.toString()` joined with `&`; no percent-escaping is needed for
the values this client produces (enum literals, sort keys, decimals). -/
def renderQuery (ps : List (String × String)) : String :=
  String.intercalate "&" (ps.map (fun p => p.1 ++ "=" ++ p.2))

/-- `const queryString = params.toString() ? ?${params.toString()} : ''`
(an empty parameter list renders as the empty string). -/
def queryString (ps : List (String × String)) : String :=
  if ps.isEmpty then "" else "?" ++ renderQuery ps

/-- The `role` filter enum of `getRepositories`. -/
inductive Role where
  | owner
  | admin
  | contributor
  | member
deriving Repr, DecidableEq

/-- The string literal of a `role` value. -/
def Role.toParamValue : Role → String
  | .owner => "owner"
  | .admin => "admin"
  | .contributor => "contributor"
  | .member => "member"

/-- The pull-request `state` enum. -/
inductive PRState where
  | OPEN
  | MERGED
  | DECLINED
  | SUPERSEDED
deriving Repr, DecidableEq

/-- The string literal of a `state` value. -/
def PRState.toParamValue : PRState → String
  | .OPEN => "OPEN"
  | .MERGED => "MERGED"
  | .DECLINED => "DECLINED"
  | .SUPERSEDED => "SUPERSEDED"

/-- Options record of `BitbucketClient.getRepositories`. -/
structure GetRepositoriesOptions where
  role : Option Role
  page : Option Int
  pagelen : Option Int
deriving Repr, DecidableEq

/-- Options record of `BitbucketClient.getPipelines`. -/
structure GetPipelinesOptions where
  sort : Option String
  page : Option Int
  pagelen : Option Int
deriving Repr, DecidableEq

/-- Options record of `BitbucketClient.getPullRequests`. -/
structure GetPullRequestsOptions where
  state : Option PRState
  sort : Option String
  page : Option Int
  pagelen : Option Int
deriving Repr, DecidableEq

/-- Query parameters built by `BitbucketClient.getRepositories`:
`role`, then `page`, then `pagelen`, each guarded by truthiness. -/
def getRepositoriesParams (o : GetRepositoriesOptions) : List (String × String) :=
  (match o.role with
   | some r => [("role", r.toParamValue)]
   | none => [])
  ++ numParam "page" o.page
  ++ numParam "pagelen" o.pagelen

/-- Query parameters built by `BitbucketClient.getPipelines`:
`sort`, then `page`, then `pagelen`. -/
def getPipelinesParams (o : GetPipelinesOptions) : List (String × String) :=
  strParam "sort" o.sort
  ++ numParam "page" o.page
  ++ numParam "pagelen" o.pagelen

/-- Query parameters built by `BitbucketClient.getPullRequests`:
`state`, then `sort`, then `page`, then `pagelen`. -/
def getPullRequestsParams (o : GetPullRequestsOptions) : List (String × String) :=
  (match o.state with
   | some s => [("state", s.toParamValue)]
   | none => [])
  ++ strParam "sort" o.sort
  ++ numParam "page" o.page
  ++ numParam "pagelen" o.pagelen

/-! ### The eleven client operations of `src/bitbucket.ts` -/

/-- One call to a public `BitbucketClient` method, with its arguments.
Mutation parameter records (`CreatePullRequestParams` etc.) appear as the
JSON value that `JSON.stringify` serialises into the request body. -/
inductive ClientOp where
  | getRepositories (options : GetRepositoriesOptions)
  | getRepository (workspace repoSlug : String)
  | getPipelines (workspace repoSlug : String) (options : GetPipelinesOptions)
  | getPipeline (workspace repoSlug pipelineUuid : String)
  | getPipelineSteps (workspace repoSlug pipelineUuid : String)
  | getPullRequests (workspace repoSlug : String) (options : GetPullRequestsOptions)
  | getPullRequest (workspace repoSlug : String) (pullRequestId : Nat)
  | createPullRequest (workspace repoSlug : String) (params : Json)
  | updatePullRequest (workspace repoSlug : String) (pullRequestId : Nat) (params : Json)
  | mergePullRequest (workspace repoSlug : String) (pullRequestId : Nat) (params : Json)
  | declinePullRequest (workspace repoSlug : String) (pullRequestId : Nat)

/-- The endpoint string each method passes to `request` (template literal
with path components substituted, plus the query string for lists). -/
def ClientOp.endpoint : ClientOp → String
  | .getRepositories o =>
      "/repositories" ++ queryString (getRepositoriesParams o)
  | .getRepository w s =>
      "/repositories/" ++ w ++ "/" ++ s
  | .getPipelines w s o =>
      "/repositories/" ++ w ++ "/" ++ s ++ "/pipelines" ++ queryString (getPipelinesParams o)
  | .getPipeline w s u =>
      "/repositories/" ++ w ++ "/" ++ s ++ "/pipelines/" ++ u
  | .getPipelineSteps w s u =>
      "/repositories/" ++ w ++ "/" ++ s ++ "/pipelines/" ++ u ++ "/steps"
  | .getPullRequests w s o =>
      "/repositories/" ++ w ++ "/" ++ s ++ "/pullrequests" ++ queryString (getPullRequestsParams o)
  | .getPullRequest w s n =>
      "/repositories/" ++ w ++ "/" ++ s ++ "/pullrequests/" ++ toString n
  | .createPullRequest w s _ =>
      "/repositories/" ++ w ++ "/" ++ s ++ "/pullrequests"
  | .updatePullRequest w s n _ =>
      "/repositories/" ++ w ++ "/" ++ s ++ "/pullrequests/" ++ toString n
  | .mergePullRequest w s n _ =>
      "/repositories/" ++ w ++ "/" ++ s ++ "/pullrequests/" ++ toString n ++ "/merge"
  | .declinePullRequest w s n =>
      "/repositories/" ++ w ++ "/" ++ s ++ "/pullrequests/" ++ toString n ++ "/decline"

/-- The HTTP verb each method passes to `request` (default `GET`). -/
def ClientOp.verb : ClientOp → HttpMethod
  | .createPullRequest _ _ _ => .POST
  | .updatePullRequest _ _ _ _ => .PUT
  | .mergePullRequest _ _ _ _ => .POST
  | .declinePullRequest _ _ _ => .POST
  | _ => .GET

/-- The request body each method passes to `request` (`JSON.stringify` of
the params record for create/update/merge; no body otherwise, in
particular none for `declinePullRequest`). -/
def ClientOp.requestBody : ClientOp → Option Json
  | .createPullRequest _ _ p => some p
  | .updatePullRequest _ _ _ p => some p
  | .mergePullRequest _ _ _ p => some p
  | _ => none

/-- The single outbound HTTP request `BitbucketClient.request` assembles
for one method call: base URL plus endpoint, the method's verb and body,
and the standard headers (no operation passes option headers). -/
def ClientOp.outboundRequest (op : ClientOp) (auth : Option BitbucketAuth) : HttpRequest :=
  { url := BITBUCKET_API_BASE_URL ++ op.endpoint
    method := op.verb
    headers := requestHeaders auth []
    body := op.requestBody }

/-- A full client method call against a network `net`: issue the single
outbound request and run the response handling of `request`. -/
def runClientOp (auth : Option BitbucketAuth) (op : ClientOp)
    (net : HttpRequest → FetchOutcome) : Except RequestError Json :=
  processResponse (net (op.outboundRequest auth))

/-! ### The MCP server of `src/mcp.ts` (primary variant) -/

/-- The thirteen tool methods registered by `createMCPServer` via
`server.tool`, one constructor per registration. -/
inductive McpMethod where
  | getRepositories
  | getRepository
  | getPipelines
  | getPipeline
  | getPipelineSteps
  | getPullRequests
  | getPullRequest
  | createPullRequest
  | updatePullRequest
  | mergePullRequest
  | declinePullRequest
  | grantRepositoryAccess
  | getWorkspaceMembers
deriving Repr, DecidableEq

/-- The method names advertised in `capabilities.tools.methods` of the
`McpServer` constructed by `createMCPServer` (thirteen entries). -/
def advertisedMethods : List String :=
  ["bitbucket/getRepositories",
   "bitbucket/getRepository",
   "bitbucket/getPipelines",
   "bitbucket/getPipeline",
   "bitbucket/getPipelineSteps",
   "bitbucket/getPullRequests",
   "bitbucket/getPullRequest",
   "bitbucket/createPullRequest",
   "bitbucket/updatePullRequest",
   "bitbucket/mergePullRequest",
   "bitbucket/declinePullRequest",
   "bitbucket/grantRepositoryAccess",
   "bitbucket/getWorkspaceMembers"]

/-- For each `server.tool` registration, the registered tool name paired
with the name of the `BitbucketClient` method its handler invokes. -/
def registeredToolBindings : List (String × String) :=
  [("getRepositories", "getRepositories"),
   ("getRepository", "getRepository"),
   ("getPipelines", "getPipelines"),
   ("getPipeline", "getPipeline"),
   ("getPipelineSteps", "getPipelineSteps"),
   ("getPullRequests", "getPullRequests"),
   ("getPullRequest", "getPullRequest"),
   ("createPullRequest", "createPullRequest"),
   ("updatePullRequest", "updatePullRequest"),
   ("mergePullRequest", "mergePullRequest"),
   ("declinePullRequest", "declinePullRequest"),
   ("grantRepositoryAccess", "grantRepositoryAccess"),
   ("getWorkspaceMembers", "getWorkspaceMembers")]

/-- The public methods the `BitbucketClient` class of `src/bitbucket.ts`
actually defines (eleven; there is no `grantRepositoryAccess` and no
`getWorkspaceMembers`). -/
def bitbucketClientMethodNames : List String :=
  ["getRepositories",
   "getRepository",
   "getPipelines",
   "getPipeline",
   "getPipelineSteps",
   "getPullRequests",
   "getPullRequest",
   "createPullRequest",
   "updatePullRequest",
   "mergePullRequest",
   "declinePullRequest"]

/-- The Operation Catalog as the specification states it (the eleven
operations of the spec's table, named `bitbucket/<verb><Noun>`); this is
also exactly the tool list of the repository's own README. -/
def catalogMethods : List String :=
  ["bitbucket/getRepositories",
   "bitbucket/getRepository",
   "bitbucket/getPipelines",
   "bitbucket/getPipeline",
   "bitbucket/getPipelineSteps",
   "bitbucket/getPullRequests",
   "bitbucket/getPullRequest",
   "bitbucket/createPullRequest",
   "bitbucket/updatePullRequest",
   "bitbucket/mergePullRequest",
   "bitbucket/declinePullRequest"]

/-- Per-repository projection performed by the `getRepositories` handler:
`(repo) => ({ name, full_name, description, href: repo.links.html.href })`. -/
def projectRepo (j : Json) : Json :=
  .obj [("name", j.field "name"),
        ("full_name", j.field "full_name"),
        ("description", j.field "description"),
        ("href", ((j.field "links").field "html").field "href")]

/-- The `getRepositories` handler's output value before text rendering:
`result.values.map(projectRepo)` (an array; the pagination envelope of the
raw result is not part of the output). -/
def projectRepoList (j : Json) : Json :=
  match j.field "values" with
  | .arr xs => .arr (xs.map projectRepo)
  | _ => .arr []

/-- The value a handler serialises into its successful response envelope,
as a function of the client's decoded result. Every handler except
`getRepositories` stringifies the full result; `getRepositories` maps the
result's repositories through its four-field projection. -/
def dispatchSuccessContent : McpMethod → Json → Json
  | .getRepositories, j => projectRepoList j
  | _, j => j

/-- The response envelope of one dispatched call: either the serialised
content of a successful client result, or the propagated client error. -/
inductive Envelope where
  | success (content : Json)
  | failure (e : RequestError)
deriving Repr

/-- One full dispatch of a validated request: run the bound client call
against the network and wrap the outcome in the response envelope. -/
def handleOp (auth : Option BitbucketAuth) (m : McpMethod) (op : ClientOp)
    (net : HttpRequest → FetchOutcome) : Envelope :=
  match runClientOp auth op net with
  | .ok j => .success (dispatchSuccessContent m j)
  | .error e => .failure e

/-- The validated parameters the `getRepositories` tool schema admits:
an optional `workspace` alongside the client options. -/
structure GetRepositoriesHandlerParams where
  workspace : Option String
  role : Option Role
  page : Option Int
  pagelen : Option Int
deriving Repr, DecidableEq

/-- The endpoint reached when the `getRepositories` handler runs: the
handler forwards `workspace` into the client call, but
`BitbucketClient.getRepositories` reads only `role`, `page` and `pagelen`,
so the endpoint is built from those three fields alone. -/
def getRepositoriesHandlerEndpoint (p : GetRepositoriesHandlerParams) : String :=
  ClientOp.endpoint (.getRepositories { role := p.role, page := p.page, pagelen := p.pagelen })

/-! ### Sanity checks for the Base64 embedding (RFC 4648 test vectors) -/

example : btoa "user:pass" = "dXNlcjpwYXNz" := rfl

example : btoa "acme:secret" = "YWNtZTpzZWNyZXQ=" := rfl

example : btoa "a" = "YQ==" := rfl

example : btoa "ab" = "YWI=" := rfl

example : btoa "abc" = "YWJj" := rfl

/-! ### Helper lemmas -/

/-- A pair in the output of `numParam` has that key and a present field. -/
theorem numParam_mem {k q v : String} {x : Option Int}
    (h : (q, v) ∈ numParam k x) : q = k ∧ x.isSome := by
  cases x with
  | none => simp [numParam] at h
  | some n =>
      by_cases hn : n == 0
      · simp [numParam, hn] at h
      · simp [numParam, hn] at h
        exact ⟨h.1, rfl⟩

/-- A pair in the output of `strParam` has that key and a present field. -/
theorem strParam_mem {k q v : String} {x : Option String}
    (h : (q, v) ∈ strParam k x) : q = k ∧ x.isSome := by
  cases x with
  | none => simp [strParam] at h
  | some s =>
      by_cases hs : s == ""
      · simp [strParam, hs] at h
      · simp [strParam, hs] at h
        exact ⟨h.1, rfl⟩

/-- A non-success status makes `response.ok` false. -/
theorem ok_eq_false_of_not_success {r : HttpResponse}
    (hstatus : ¬ (200 ≤ r.status ∧ r.status ≤ 299)) : r.ok = false := by
  unfold HttpResponse.ok
  simp only [Bool.and_eq_false_iff, decide_eq_false_iff_not]
  omega

/-! ### Claim theorems -/

/-- C1: for every client operation, when the network yields an HTTP
response whose status is outside the success range 200-299, the call
fails with the remote-API error value carrying that status code, the
status text, and the decoded JSON error body (the generic fallback body
when the error response is not valid JSON). -/
theorem non_success_status_fails_with_remote_api_error
    (op : ClientOp) (auth : Option BitbucketAuth)
    (net : HttpRequest → FetchOutcome) (r : HttpResponse)
    (hnet : net (op.outboundRequest auth) = .response r)
    (hstatus : ¬ (200 ≤ r.status ∧ r.status ≤ 299)) :
    runClientOp auth op net =
      .error (.remoteApiError r.status r.statusText (r.bodyJson.getD fallbackErrorBody)) := by
  have hok := ok_eq_false_of_not_success hstatus
  simp [runClientOp, hnet, processResponse, hok]

/-- C1 witness: a 404 response with a decoded JSON error body makes
`getRepository` fail with the remote-API error carrying 404, the status
text, and that body. -/
theorem non_success_status_fails_with_remote_api_error_witness :
    runClientOp (some ⟨"alice", "pw"⟩) (.getRepository "acme" "widgets")
      (fun _ => .response ⟨404, "Not Found", some (.obj [("message", .str "missing")])⟩) =
      .error (.remoteApiError 404 "Not Found" (.obj [("message", .str "missing")])) :=
  non_success_status_fails_with_remote_api_error
    (.getRepository "acme" "widgets") (some ⟨"alice", "pw"⟩)
    (fun _ => .response ⟨404, "Not Found", some (.obj [("message", .str "missing")])⟩)
    ⟨404, "Not Found", some (.obj [("message", .str "missing")])⟩ rfl (by decide)

/-- C2: for every client operation, a network-level failure in which no
HTTP response is obtained at all fails with the transport error carrying
the underlying failure, and a transport error is never equal to a
remote-API error, so the two failure kinds are distinguishable by the
caller. -/
theorem transport_failure_distinct_from_remote_api_error :
    (∀ (op : ClientOp) (auth : Option BitbucketAuth)
       (net : HttpRequest → FetchOutcome) (e : String),
       net (op.outboundRequest auth) = .failure e →
       runClientOp auth op net = .error (.transportError e))
    ∧ (∀ (e : String) (s : Nat) (t : String) (b : Json),
       RequestError.transportError e ≠ RequestError.remoteApiError s t b) := by
  constructor
  · intro op auth net e hnet
    simp [runClientOp, hnet, processResponse]
  · intro e s t b h
    exact RequestError.noConfusion h

/-- C2 witness: a rejected `fetch` with a connection failure makes
`getRepository` fail with exactly that transport error. -/
theorem transport_failure_distinct_from_remote_api_error_witness :
    runClientOp (some ⟨"alice", "pw"⟩) (.getRepository "acme" "widgets")
      (fun _ => .failure "connection refused")
      = .error (.transportError "connection refused") :=
  transport_failure_distinct_from_remote_api_error.1
    (.getRepository "acme" "widgets") (some ⟨"alice", "pw"⟩)
    (fun _ => .failure "connection refused") "connection refused" rfl

/-- C7: every client operation's outbound HTTP request carries an
Authorization header whose value is exactly "Basic " followed by the
Base64 encoding of username:password formed from the client's
credentials. -/
theorem outbound_request_carries_basic_auth_header
    (op : ClientOp) (u p : String) :
    ("Authorization", "Basic " ++ btoa (u ++ ":" ++ p)) ∈
      (op.outboundRequest (some ⟨u, p⟩)).headers := by
  simp [ClientOp.outboundRequest, requestHeaders, getAuthHeader]

/-- C8: for every workspace, repository slug and pull-request id, the
decline operation's single outbound request is a POST to
/repositories/workspace/slug/pullrequests/id/decline with no body. -/
theorem decline_pull_request_outbound
    (auth : Option BitbucketAuth) (w s : String) (n : Nat) :
    ((ClientOp.declinePullRequest w s n).outboundRequest auth).url =
        BITBUCKET_API_BASE_URL ++
          ("/repositories/" ++ w ++ "/" ++ s ++ "/pullrequests/" ++ toString n ++ "/decline")
    ∧ ((ClientOp.declinePullRequest w s n).outboundRequest auth).method = .POST
    ∧ ((ClientOp.declinePullRequest w s n).outboundRequest auth).body = none :=
  ⟨rfl, rfl, rfl⟩

/-- A pair in the output of `getRepositoriesParams` comes from a supplied
field. -/
theorem getRepositoriesParams_mem (o : GetRepositoriesOptions) (q v : String)
    (h : (q, v) ∈ getRepositoriesParams o) :
    (q = "role" ∧ o.role.isSome) ∨ (q = "page" ∧ o.page.isSome)
      ∨ (q = "pagelen" ∧ o.pagelen.isSome) := by
  unfold getRepositoriesParams at h
  rcases List.mem_append.1 h with h1 | hplen
  · rcases List.mem_append.1 h1 with hrole | hpage
    · left
      cases hr : o.role with
      | none => rw [hr] at hrole; simp at hrole
      | some r =>
          rw [hr] at hrole
          simp at hrole
          exact ⟨hrole.1, rfl⟩
    · exact Or.inr (Or.inl (numParam_mem hpage))
  · exact Or.inr (Or.inr (numParam_mem hplen))

/-- A pair in the output of `getPipelinesParams` comes from a supplied
field. -/
theorem getPipelinesParams_mem (o : GetPipelinesOptions) (q v : String)
    (h : (q, v) ∈ getPipelinesParams o) :
    (q = "sort" ∧ o.sort.isSome) ∨ (q = "page" ∧ o.page.isSome)
      ∨ (q = "pagelen" ∧ o.pagelen.isSome) := by
  unfold getPipelinesParams at h
  rcases List.mem_append.1 h with h1 | hplen
  · rcases List.mem_append.1 h1 with hsort | hpage
    · exact Or.inl (strParam_mem hsort)
    · exact Or.inr (Or.inl (numParam_mem hpage))
  · exact Or.inr (Or.inr (numParam_mem hplen))

/-- A pair in the output of `getPullRequestsParams` comes from a supplied
field. -/
theorem getPullRequestsParams_mem (o : GetPullRequestsOptions) (q v : String)
    (h : (q, v) ∈ getPullRequestsParams o) :
    (q = "state" ∧ o.state.isSome) ∨ (q = "sort" ∧ o.sort.isSome)
      ∨ (q = "page" ∧ o.page.isSome) ∨ (q = "pagelen" ∧ o.pagelen.isSome) := by
  unfold getPullRequestsParams at h
  rcases List.mem_append.1 h with h1 | hplen
  · rcases List.mem_append.1 h1 with h2 | hpage
    · rcases List.mem_append.1 h2 with hstate | hsort
      · left
        cases hs : o.state with
        | none => rw [hs] at hstate; simp at hstate
        | some s =>
            rw [hs] at hstate
            simp at hstate
            exact ⟨hstate.1, rfl⟩
      · exact Or.inr (Or.inl (strParam_mem hsort))
    · exact Or.inr (Or.inr (Or.inl (numParam_mem hpage)))
  · exact Or.inr (Or.inr (Or.inr (numParam_mem hplen)))

/-- C6: for every list operation (repositories, pipelines, pull requests)
and every options record, the outbound query contains only keys whose
optional field was supplied with a defined value; an absent optional
field never appears in the query string. -/
theorem query_contains_only_supplied_keys :
    (∀ (o : GetRepositoriesOptions) (q v : String), (q, v) ∈ getRepositoriesParams o →
       (q = "role" ∧ o.role.isSome) ∨ (q = "page" ∧ o.page.isSome)
         ∨ (q = "pagelen" ∧ o.pagelen.isSome))
    ∧ (∀ (o : GetPipelinesOptions) (q v : String), (q, v) ∈ getPipelinesParams o →
       (q = "sort" ∧ o.sort.isSome) ∨ (q = "page" ∧ o.page.isSome)
         ∨ (q = "pagelen" ∧ o.pagelen.isSome))
    ∧ (∀ (o : GetPullRequestsOptions) (q v : String), (q, v) ∈ getPullRequestsParams o →
       (q = "state" ∧ o.state.isSome) ∨ (q = "sort" ∧ o.sort.isSome)
         ∨ (q = "page" ∧ o.page.isSome) ∨ (q = "pagelen" ∧ o.pagelen.isSome)) :=
  ⟨getRepositoriesParams_mem, getPipelinesParams_mem, getPullRequestsParams_mem⟩

/-- C6 witness: with only the role filter supplied, the single query pair
is the role pair and the theorem attributes it to the supplied field. -/
theorem query_contains_only_supplied_keys_witness :
    (("role", "owner") ∈
        getRepositoriesParams { role := some Role.owner, page := none, pagelen := none })
    ∧ (("role" = "role"
          ∧ (GetRepositoriesOptions.mk (some Role.owner) none none).role.isSome)
       ∨ ("role" = "page"
          ∧ (GetRepositoriesOptions.mk (some Role.owner) none none).page.isSome)
       ∨ ("role" = "pagelen"
          ∧ (GetRepositoriesOptions.mk (some Role.owner) none none).pagelen.isSome)) :=
  ⟨by decide,
   query_contains_only_supplied_keys.1
     (GetRepositoriesOptions.mk (some Role.owner) none none) "role" "owner" (by decide)⟩

/-- C10: for each list operation, an optional numeric parameter supplied
with the value 0 (page = 0 or pagelen = 0) is treated exactly like an
absent parameter: presence is decided by truthiness, so the key is
omitted from the outbound query string. -/
theorem zero_valued_numeric_param_omitted :
    (∀ o : GetRepositoriesOptions,
       getRepositoriesParams { o with page := some 0 }
           = getRepositoriesParams { o with page := none }
       ∧ getRepositoriesParams { o with pagelen := some 0 }
           = getRepositoriesParams { o with pagelen := none })
    ∧ (∀ o : GetPipelinesOptions,
       getPipelinesParams { o with page := some 0 }
           = getPipelinesParams { o with page := none }
       ∧ getPipelinesParams { o with pagelen := some 0 }
           = getPipelinesParams { o with pagelen := none })
    ∧ (∀ o : GetPullRequestsOptions,
       getPullRequestsParams { o with page := some 0 }
           = getPullRequestsParams { o with page := none }
       ∧ getPullRequestsParams { o with pagelen := some 0 }
           = getPullRequestsParams { o with pagelen := none }) := by
  refine ⟨fun o => ⟨?_, ?_⟩, fun o => ⟨?_, ?_⟩, fun o => ⟨?_, ?_⟩⟩ <;>
    simp [getRepositoriesParams, getPipelinesParams, getPullRequestsParams, numParam]

/-- C5: the claim fails on the code — `BitbucketClient.getRepositories`
never places the workspace in the path. The handler accepts and forwards
a workspace, but the endpoint is built from role, page and pagelen alone,
so a supplied workspace yields a GET to /repositories, not to
/repositories/workspace. -/
theorem get_repositories_workspace_never_in_path :
    getRepositoriesHandlerEndpoint
        { workspace := some "acme", role := none, page := none, pagelen := none }
      = "/repositories"
    ∧ getRepositoriesHandlerEndpoint
        { workspace := some "acme", role := some .owner, page := none, pagelen := none }
      = "/repositories?role=owner"
    ∧ (∀ (p : GetRepositoriesHandlerParams) (w : Option String),
        getRepositoriesHandlerEndpoint { p with workspace := w }
          = getRepositoriesHandlerEndpoint p) :=
  ⟨rfl, rfl, fun _ _ => rfl⟩

/-- C3: evaluation of the constructed server's capability set against the
client and the catalog. Tool names are unique, but the advertised set has
thirteen entries, two of which (grantRepositoryAccess,
getWorkspaceMembers) are registered with handlers bound to
`BitbucketClient` methods that do not exist, and the advertised set is
not the eleven-operation catalog. -/
theorem advertised_set_exceeds_catalog :
    advertisedMethods.Nodup
    ∧ "bitbucket/grantRepositoryAccess" ∈ advertisedMethods
    ∧ "bitbucket/getWorkspaceMembers" ∈ advertisedMethods
    ∧ ("grantRepositoryAccess", "grantRepositoryAccess") ∈ registeredToolBindings
    ∧ ("getWorkspaceMembers", "getWorkspaceMembers") ∈ registeredToolBindings
    ∧ "grantRepositoryAccess" ∉ bitbucketClientMethodNames
    ∧ "getWorkspaceMembers" ∉ bitbucketClientMethodNames
    ∧ catalogMethods.length = 11
    ∧ advertisedMethods.length = 13
    ∧ advertisedMethods ≠ catalogMethods := by
  decide

/-- A decoded list-repositories result: one repository (uuid u1) plus the
pagination envelope. -/
def sampleRepoResult1 : Json :=
  .obj [("values", .arr [
          .obj [("uuid", .str "u1"),
                ("name", .str "widgets"),
                ("full_name", .str "acme/widgets"),
                ("description", .str "demo repo"),
                ("links", .obj [("html", .obj [("href", .str "hrefA")])])]]),
        ("pagelen", .num 10), ("size", .num 1), ("page", .num 1)]

/-- The same decoded result with the repository uuid changed to u2. -/
def sampleRepoResult2 : Json :=
  .obj [("values", .arr [
          .obj [("uuid", .str "u2"),
                ("name", .str "widgets"),
                ("full_name", .str "acme/widgets"),
                ("description", .str "demo repo"),
                ("links", .obj [("html", .obj [("href", .str "hrefA")])])]]),
        ("pagelen", .num 10), ("size", .num 1), ("page", .num 1)]

/-- C4 counterexample: the getRepositories envelope content is not the
decoded result — at a concrete result it is the four-field projection,
two results differing only in a repository uuid produce identical
content, and the content differs from the raw result. The pass-through
claim therefore fails and fields are dropped. -/
theorem get_repositories_content_not_passthrough :
    dispatchSuccessContent .getRepositories sampleRepoResult1 =
      .arr [.obj [("name", .str "widgets"),
                  ("full_name", .str "acme/widgets"),
                  ("description", .str "demo repo"),
                  ("href", .str "hrefA")]]
    ∧ sampleRepoResult1 ≠ sampleRepoResult2
    ∧ dispatchSuccessContent .getRepositories sampleRepoResult1
        = dispatchSuccessContent .getRepositories sampleRepoResult2
    ∧ dispatchSuccessContent .getRepositories sampleRepoResult1 ≠ sampleRepoResult1 := by
  refine ⟨rfl, ?_, rfl, ?_⟩
  · intro h
    simp [sampleRepoResult1, sampleRepoResult2] at h
  · intro h
    rw [show dispatchSuccessContent .getRepositories sampleRepoResult1 =
          .arr [.obj [("name", .str "widgets"),
                      ("full_name", .str "acme/widgets"),
                      ("description", .str "demo repo"),
                      ("href", .str "hrefA")]] from rfl] at h
    simp [sampleRepoResult1] at h

/-- C4 (amended): for every registered method other than getRepositories
the successful envelope's content is the client's decoded result
unchanged, while the getRepositories handler replaces the result by the
per-repository projection onto name, full_name, description and
links.html.href, dropping every other field. -/
theorem dispatch_content_passthrough_except_get_repositories :
    (∀ (m : McpMethod) (j : Json), m ≠ .getRepositories →
       dispatchSuccessContent m j = j)
    ∧ (∀ j : Json, dispatchSuccessContent .getRepositories j = projectRepoList j) := by
  constructor
  · intro m j hm
    cases m <;> first | rfl | exact absurd rfl hm
  · intro j
    rfl

/-- C4 witness: the getRepository envelope content is the decoded result
unchanged. -/
theorem dispatch_content_passthrough_witness :
    dispatchSuccessContent .getRepository (.obj [("uuid", .str "u1")])
      = .obj [("uuid", .str "u1")] :=
  dispatch_content_passthrough_except_get_repositories.1
    .getRepository (.obj [("uuid", .str "u1")]) (by decide)

/-- C9: credentials are never echoed in output. For every registered
method, bound client call and fixed remote behaviour, two different
credential pairs yield identical response envelopes; and credentials
influence nothing of the outbound request except its headers (url, verb
and body are credential-independent). -/
theorem envelope_independent_of_credentials :
    (∀ (m : McpMethod) (op : ClientOp) (net : HttpRequest → FetchOutcome)
       (a1 a2 : BitbucketAuth),
       (∀ r1 r2 : HttpRequest, net r1 = net r2) →
       handleOp (some a1) m op net = handleOp (some a2) m op net)
    ∧ (∀ (op : ClientOp) (auth1 auth2 : Option BitbucketAuth),
       (op.outboundRequest auth1).url = (op.outboundRequest auth2).url
       ∧ (op.outboundRequest auth1).method = (op.outboundRequest auth2).method
       ∧ (op.outboundRequest auth1).body = (op.outboundRequest auth2).body) := by
  constructor
  · intro m op net a1 a2 hnet
    unfold handleOp runClientOp
    rw [hnet (op.outboundRequest (some a1)) (op.outboundRequest (some a2))]
  · intro op auth1 auth2
    exact ⟨rfl, rfl, rfl⟩

/-- C9 witness: with a fixed 200 response, two different credential pairs
produce the same getRepository envelope. -/
theorem envelope_independent_of_credentials_witness :
    handleOp (some ⟨"alice", "secretA"⟩) .getRepository
        (.getRepository "acme" "widgets")
        (fun _ => .response ⟨200, "OK", some (.obj [("name", .str "widgets")])⟩)
      = handleOp (some ⟨"bob", "secretB"⟩) .getRepository
        (.getRepository "acme" "widgets")
        (fun _ => .response ⟨200, "OK", some (.obj [("name", .str "widgets")])⟩) :=
  envelope_independent_of_credentials.1 .getRepository
    (.getRepository "acme" "widgets")
    (fun _ => .response ⟨200, "OK", some (.obj [("name", .str "widgets")])⟩)
    ⟨"alice", "secretA"⟩ ⟨"bob", "secretB"⟩ (fun _ _ => rfl)

end Vibucket
